import Mathlib

/-!
Shallow embedding of the `service` package of eco-goinfra: a builder type
for Kubernetes `corev1.Service` objects, with fluent mutators and CRUD
helpers that delegate to a cluster API client.

The Go code mutates builders through pointers; here every operation takes
and returns the builder state explicitly.  A `*Builder` (which may be nil)
is modelled as `Option Builder`, and pointer identity is modelled by an
`id` field carried unchanged by every in-place mutation: two builder values
represent the same Go pointer exactly when their `id`s agree.  The
third-party cluster API client is modelled as an oracle record of response
functions, and every operation additionally returns the list of API calls
it made, so that "makes no cluster API call" is a statement about that list.
-/

set_option autoImplicit false

namespace service

/-- `intstr.IntOrString`: `typ` is `0` for `intstr.Int`, `1` for `intstr.String`. -/
structure IntOrString where
  typ : Int
  intVal : Int
  strVal : String
  deriving Repr, DecidableEq

/-- `corev1.ServicePort`, restricted to the fields this package touches. -/
structure ServicePort where
  protocol : String
  port : Int
  targetPort : IntOrString
  nodePort : Int
  deriving Repr, DecidableEq

/-- `metav1.ObjectMeta`, restricted to the fields this package touches.
`annotations` is a nil-able Go map, hence an `Option`. -/
structure ObjectMeta where
  name : String
  namespace' : String
  annotations : Option (List (String × String))
  deriving Repr, DecidableEq

/-- `corev1.ServiceSpec`, restricted to the fields this package touches.
`ipFamilies` is a nil-able slice and `ipFamilyPolicy` a nil-able pointer. -/
structure ServiceSpec where
  selector : List (String × String)
  ports : List ServicePort
  type : String
  externalTrafficPolicy : String
  ipFamilies : Option (List String)
  ipFamilyPolicy : Option String
  deriving Repr, DecidableEq

/-- `corev1.Service`. -/
structure Service where
  metadata : ObjectMeta
  spec : ServiceSpec
  deriving Repr, DecidableEq

/-- Errors returned by the cluster API client.  `k8serrors.IsNotFound`
distinguishes `notFound` from every other failure. -/
inductive ApiError where
  | notFound
  | other (msg : String)
  deriving Repr, DecidableEq

/-- `k8serrors.IsNotFound`. -/
def ApiError.isNotFound : ApiError → Bool
  | .notFound => true
  | .other _ => false

/-- A Go `error` value produced by this package: either a `fmt.Errorf`
string or an error passed through from the cluster API. -/
inductive GoError where
  | fromString (s : String)
  | api (e : ApiError)
  deriving Repr, DecidableEq

/-- The third-party cluster API client (`clients.Settings` and the typed
service interface it yields), modelled as an oracle: `get ns name`,
`create ns svc` and `delete ns name` each return what the cluster answers. -/
structure ApiClient where
  get : String → String → Except ApiError Service
  create : String → Service → Except ApiError Service
  delete : String → String → Option ApiError

/-- One call made to the cluster API, recorded for effect tracking. -/
inductive ApiCall where
  | get (ns name : String)
  | create (ns : String) (svc : Service)
  | delete (ns name : String)
  deriving Repr

/-- The `Builder` struct.  `id` is a model artifact standing for the Go
pointer address: operations that return the receiver keep it, and two
values denote the same pointer iff their `id`s agree.  `Definition`,
`Object` and `apiClient` are nil-able Go pointers, hence `Option`s. -/
structure Builder where
  id : Nat
  Definition : Option Service
  Object : Option Service
  errorMsg : String
  apiClient : Option ApiClient

/-- Modelled from the spec: the repository's `msg` package (only its caller
is under `src/`) supplies `UndefinedCrdObjectErrString`, a non-empty
message naming the undefined resource kind. -/
def UndefinedCrdObjectErrString (resourceCRD : String) : String :=
  "can not redefine the undefined " ++ resourceCRD

/-- Result of `Builder.validate`: Go returns `(bool, error)` and may have
mutated the builder through its pointer.  `invalid` carries the (possibly
updated) receiver pointer and the error message; `valid` carries the
receiver, which validation guarantees is non-nil. -/
inductive VResult where
  | invalid (bp : Option Builder) (err : String)
  | valid (b : Builder)

/-- The `bool` component of Go's `validate` return. -/
def VResult.isValid : VResult → Bool
  | .invalid _ _ => false
  | .valid _ => true

/-- The `error` component of Go's `validate` return (`none` is a nil error). -/
def VResult.errMsg : VResult → Option String
  | .invalid _ e => some e
  | .valid _ => none

/-- The receiver pointer as the caller sees it after `validate` ran. -/
def VResult.bptr : VResult → Option Builder
  | .invalid bp _ => bp
  | .valid b => some b

/-- `Builder.validate`: nil-receiver check, then the `Definition` and
`apiClient` nil checks each overwrite `errorMsg`, then a non-empty
`errorMsg` is returned as the error. -/
def validate (bp : Option Builder) : VResult :=
  match bp with
  | none => .invalid none "error: received nil Service builder"
  | some b =>
    let b1 := if b.Definition.isNone then
      { b with errorMsg := UndefinedCrdObjectErrString "Service" } else b
    let b2 := if b1.apiClient.isNone then
      { b1 with errorMsg := "Service builder cannot have nil apiClient" } else b1
    if b2.errorMsg = "" then .valid b2 else .invalid (some b2) b2.errorMsg

/-- `NewBuilder`: builds the definition from the arguments, then the empty
`name` and empty `nsname` checks each overwrite `errorMsg`.  `freshId`
models the address of the freshly allocated builder. -/
def NewBuilder (apiClient : Option ApiClient) (name nsname : String)
    (labels : List (String × String)) (servicePort : ServicePort)
    (freshId : Nat) : Builder :=
  let builder : Builder := {
    id := freshId
    apiClient := apiClient
    Definition := some {
      metadata := { name := name, namespace' := nsname, annotations := none }
      spec := {
        selector := labels
        ports := [servicePort]
        type := ""
        externalTrafficPolicy := ""
        ipFamilies := none
        ipFamilyPolicy := none } }
    Object := none
    errorMsg := "" }
  let builder := if name = "" then
    { builder with errorMsg := "Service 'name' cannot be empty" } else builder
  let builder := if nsname = "" then
    { builder with errorMsg := "Namespace 'nsname' cannot be empty" } else builder
  builder

/-- `Builder.WithNodePort`: on a valid builder, first sets the service type
to `NodePort`, then fails if there are no ports, otherwise copies the first
port into its node port. -/
def WithNodePort (bp : Option Builder) : Option Builder :=
  match validate bp with
  | .invalid bp' _ => bp'
  | .valid b =>
    match b.Definition with
    | none => some b
    | some d =>
      let b := { b with Definition := some { d with spec := { d.spec with type := "NodePort" } } }
      if d.spec.ports.length < 1 then
        some { b with errorMsg := "service does not have the available ports" }
      else
        let ports' := match d.spec.ports with
          | [] => []
          | p :: rest => { p with nodePort := p.port } :: rest
        let d' := { d with spec := { d.spec with type := "NodePort", ports := ports' } }
        some { b with Definition := some d' }

/-- `Builder.Exists`: fetches the live object into `Object` and reports
`err == nil || !IsNotFound(err)`.  Also returns the receiver pointer after
the call and the API calls made. -/
def Exists (bp : Option Builder) : Bool × Option Builder × List ApiCall :=
  match validate bp with
  | .invalid bp' _ => (false, bp', [])
  | .valid b =>
    match b.apiClient, b.Definition with
    | some c, some d =>
      let res := c.get d.metadata.namespace' d.metadata.name
      let obj := match res with
        | .ok s => some s
        | .error _ => none
      let b1 := { b with Object := obj }
      let ex := match res with
        | .ok _ => true
        | .error e => !e.isNotFound
      (ex, some b1, [ApiCall.get d.metadata.namespace' d.metadata.name])
    | _, _ => (false, some b, [])

/-- `Builder.Create`: on a valid builder, creates the service only when
`Exists` is false, storing the API's answer in `Object`. -/
def Create (bp : Option Builder) : Option Builder × Option GoError × List ApiCall :=
  match validate bp with
  | .invalid bp' err => (bp', some (.fromString err), [])
  | .valid b =>
    match Exists (some b) with
    | (ex, bp1, calls) =>
      match bp1 with
      | none => (none, none, calls)
      | some b1 =>
        if ex then (some b1, none, calls)
        else
          match b1.apiClient, b1.Definition with
          | some c, some d =>
            match c.create d.metadata.namespace' d with
            | .ok s => (some { b1 with Object := some s }, none,
                calls ++ [ApiCall.create d.metadata.namespace' d])
            | .error e => (some { b1 with Object := none }, some (.api e),
                calls ++ [ApiCall.create d.metadata.namespace' d])
          | _, _ => (some b1, none, calls)

/-- Outcome of `Builder.Delete`: a returned Go error, or a runtime panic
(the code dereferences `builder.Object` without a nil check). -/
inductive DelOutcome where
  | ret (err : Option GoError)
  | panicked
  deriving Repr, DecidableEq

/-- `Builder.Delete`: on a valid builder, returns nil when `Exists` is
false; otherwise deletes `Object.Name` in `Definition.Namespace`, clearing
`Object` on success and keeping it on failure. -/
def Delete (bp : Option Builder) : DelOutcome × Option Builder × List ApiCall :=
  match validate bp with
  | .invalid bp' err => (.ret (some (.fromString err)), bp', [])
  | .valid b =>
    match Exists (some b) with
    | (ex, bp1, calls) =>
      match bp1 with
      | none => (.ret none, none, calls)
      | some b1 =>
        if !ex then (.ret none, some b1, calls)
        else
          match b1.apiClient, b1.Definition with
          | some c, some d =>
            match b1.Object with
            | none => (.panicked, some b1, calls)
            | some o =>
              match c.delete d.metadata.namespace' o.metadata.name with
              | some e => (.ret (some (.api e)), some b1,
                  calls ++ [ApiCall.delete d.metadata.namespace' o.metadata.name])
              | none => (.ret none, some { b1 with Object := none },
                  calls ++ [ApiCall.delete d.metadata.namespace' o.metadata.name])
          | _, _ => (.ret none, some b1, calls)

/-- `AdditionalOptions`: a mutation function handed the builder pointer,
returning a builder pointer and an error. -/
def AdditionalOptions : Type :=
  Builder → Builder × Option String

/-- The loop body of `WithOptions`.  A nil option is skipped.  When an
option returns a non-nil error, its returned builder (the shadowing
`builder` variable) gets `errorMsg` set and is returned.  When it returns
a nil error the shadowing variable is discarded and the loop continues
with the receiver: its state is the option's result exactly when the
option returned the receiver's own pointer. -/
def withOptionsLoop : Builder → List (Option AdditionalOptions) → Builder
  | b, [] => b
  | b, none :: rest => withOptionsLoop b rest
  | b, some opt :: rest =>
    match opt b with
    | (rb, some err) => { rb with errorMsg := err }
    | (rb, none) => withOptionsLoop (if rb.id = b.id then rb else b) rest

/-- `Builder.WithOptions`: applies each option in turn on a valid builder. -/
def WithOptions (bp : Option Builder) (options : List (Option AdditionalOptions)) :
    Option Builder :=
  match validate bp with
  | .invalid bp' _ => bp'
  | .valid b => some (withOptionsLoop b options)

/-- `Builder.WithExternalTrafficPolicy`: rejects an empty policy, else sets
the type to `LoadBalancer` and records the policy. -/
def WithExternalTrafficPolicy (bp : Option Builder) (policyType : String) :
    Option Builder :=
  match validate bp with
  | .invalid bp' _ => bp'
  | .valid b =>
    let b := if policyType = "" then
      { b with errorMsg := "ExternalTrafficPolicy can not be empty" } else b
    if b.errorMsg ≠ "" then some b
    else
      match b.Definition with
      | none => some b
      | some d =>
        let d' := { d with spec :=
          { d.spec with type := "LoadBalancer", externalTrafficPolicy := policyType } }
        some { b with Definition := some d' }

/-- `Builder.WithAnnotation`: rejects a nil map, else stores it in the
definition's metadata. -/
def WithAnnotation (bp : Option Builder) (anns : Option (List (String × String))) :
    Option Builder :=
  match validate bp with
  | .invalid bp' _ => bp'
  | .valid b =>
    let b := if anns.isNone then
      { b with errorMsg := "Annotation can not be empty map" } else b
    if b.errorMsg ≠ "" then some b
    else
      match b.Definition with
      | none => some b
      | some d =>
        let d' := { d with metadata := { d.metadata with annotations := anns } }
        some { b with Definition := some d' }

/-- `Builder.WithIPFamily`: the nil-family and empty-policy checks each
overwrite `errorMsg`; on success both fields are stored. -/
def WithIPFamily (bp : Option Builder) (ipFamily : Option (List String))
    (ipStackPolicy : String) : Option Builder :=
  match validate bp with
  | .invalid bp' _ => bp'
  | .valid b =>
    let b := if ipFamily.isNone then
      { b with errorMsg := "failed to set empty ipFamily" } else b
    let b := if ipStackPolicy = "" then
      { b with errorMsg := "failed to set empty ipStackPolicy" } else b
    if b.errorMsg ≠ "" then some b
    else
      match b.Definition with
      | none => some b
      | some d =>
        let d' := { d with spec :=
          { d.spec with ipFamilies := ipFamily, ipFamilyPolicy := some ipStackPolicy } }
        some { b with Definition := some d' }

/-- `isValidPort`: `(port > 0) || (port < 65535)`. -/
def isValidPort (port : Int) : Bool :=
  if (port > 0) ∨ (port < 65535) then true else false

/-- `DefineServicePort`: guards both ports with `isValidPort`, then builds
a `ServicePort` with the given protocol, port and integer target port. -/
def DefineServicePort (port targetPort : Int) (protocol : String) :
    Option ServicePort × Option GoError :=
  if ¬ isValidPort port then (none, some (.fromString "invalid port number"))
  else if ¬ isValidPort targetPort then
    (none, some (.fromString "invalid target port number"))
  else
    (some {
      protocol := protocol
      port := port
      targetPort := { typ := 0, intVal := targetPort, strVal := "" }
      nodePort := 0 }, none)

/-- Pointer identity of a `*Builder` value: the address (`id`) it points
to, or `none` for the nil pointer. -/
def ptrId : Option Builder → Option Nat :=
  Option.map Builder.id

/-- The `Object` value `Exists` stores: the fetched service on success,
nil on failure. -/
def getObject (c : ApiClient) (ns name : String) : Option Service :=
  match c.get ns name with
  | .ok s => some s
  | .error _ => none

/-! ### Concrete fixtures used by witnesses and counterexamples -/

/-- A sample port. -/
def samplePort : ServicePort :=
  { protocol := "TCP", port := 80
    targetPort := { typ := 0, intVal := 8080, strVal := "" }, nodePort := 0 }

/-- A sample service definition. -/
def sampleService : Service :=
  { metadata := { name := "svc", namespace' := "ns", annotations := none }
    spec := { selector := [("app", "demo")], ports := [samplePort], type := ""
              externalTrafficPolicy := "", ipFamilies := none, ipFamilyPolicy := none } }

/-- A cluster that has no such service: `Get` answers NotFound. -/
def notFoundClient : ApiClient :=
  { get := fun _ _ => .error .notFound
    create := fun _ d => .ok d
    delete := fun _ _ => none }

/-- A cluster on which the service exists: `Get` answers `sampleService`. -/
def okClient : ApiClient :=
  { get := fun _ _ => .ok sampleService
    create := fun _ d => .ok d
    delete := fun _ _ => none }

/-- A cluster whose `Get` fails with a non-NotFound error. -/
def downClient : ApiClient :=
  { get := fun _ _ => .error (.other "connection refused")
    create := fun _ d => .ok d
    delete := fun _ _ => none }

/-- A cluster on which the service exists but `Delete` fails. -/
def delFailClient : ApiClient :=
  { get := fun _ _ => .ok sampleService
    create := fun _ d => .ok d
    delete := fun _ _ => some (.other "forbidden") }

/-- A well-formed builder aimed at a cluster without the service. -/
def vbNotFound : Builder :=
  { id := 10, Definition := some sampleService, Object := none
    errorMsg := "", apiClient := some notFoundClient }

/-- A well-formed builder aimed at a cluster with the service. -/
def vbOk : Builder :=
  { id := 11, Definition := some sampleService, Object := none
    errorMsg := "", apiClient := some okClient }

/-- A well-formed builder aimed at an unreachable cluster. -/
def vbDown : Builder :=
  { id := 12, Definition := some sampleService, Object := none
    errorMsg := "", apiClient := some downClient }

/-- A well-formed builder whose cluster rejects `Delete`. -/
def vbDelFail : Builder :=
  { id := 13, Definition := some sampleService, Object := none
    errorMsg := "", apiClient := some delFailClient }

/-- A builder whose `Definition` pointer is nil. -/
def nilDefBuilder : Builder :=
  { id := 7, Definition := none, Object := none
    errorMsg := "", apiClient := some notFoundClient }

/-- A builder with an accumulated error but healthy pointers. -/
def errBuilder : Builder :=
  { id := 4, Definition := some sampleService, Object := none
    errorMsg := "boom", apiClient := some notFoundClient }

/-- A builder with an accumulated error and a nil `apiClient`. -/
def stuckBuilder : Builder :=
  { id := 3, Definition := some sampleService, Object := none
    errorMsg := "boom", apiClient := none }

/-- A well-formed builder at address 0. -/
def cb0 : Builder :=
  { id := 0, Definition := some sampleService, Object := none
    errorMsg := "", apiClient := some notFoundClient }

/-- A distinct well-formed builder at address 1. -/
def cb1 : Builder :=
  { id := 1, Definition := some sampleService, Object := none
    errorMsg := "", apiClient := some notFoundClient }

/-- An option that hands back a different builder together with an error. -/
def swapOpt : AdditionalOptions :=
  fun _ => (cb1, some "mutation failed")

/-- A service definition with an empty `Ports` slice. -/
def noPortsService : Service :=
  { sampleService with spec := { sampleService.spec with ports := [] } }

/-- A builder whose definition has an empty `Ports` slice. -/
def noPortsBuilder : Builder :=
  { id := 14, Definition := some noPortsService, Object := none
    errorMsg := "", apiClient := some notFoundClient }

/-! ### Shared facts about `validate` -/

/-- A builder passing all three checks validates to itself. -/
theorem validate_some_valid (b : Builder) (c : ApiClient) (d : Service)
    (hc : b.apiClient = some c) (hd : b.Definition = some d)
    (he : b.errorMsg = "") : validate (some b) = .valid b := by
  simp [validate, hc, hd, he]

/-- A builder with an accumulated error and healthy pointers validates to
`invalid` with that very message, leaving the builder untouched. -/
theorem validate_some_invalid (b : Builder) (c : ApiClient) (d : Service)
    (hc : b.apiClient = some c) (hd : b.Definition = some d)
    (he : b.errorMsg ≠ "") : validate (some b) = .invalid (some b) b.errorMsg := by
  simp [validate, hc, hd, he]

/-- `validate` can answer `valid` only on the unmodified non-nil receiver. -/
theorem validate_valid_eq (bp : Option Builder) (b' : Builder)
    (h : validate bp = .valid b') : bp = some b' := by
  cases bp with
  | none => simp [validate] at h
  | some b =>
    by_cases hd : b.Definition.isNone <;> by_cases hc : b.apiClient.isNone <;>
      simp [validate, hd, hc, UndefinedCrdObjectErrString] at h
    by_cases he : b.errorMsg = "" <;> simp [he] at h
    simp [h]

/-- `validate` never moves the receiver pointer. -/
theorem ptrId_validate (bp : Option Builder) : ptrId (validate bp).bptr = ptrId bp := by
  cases bp with
  | none => rfl
  | some b =>
    by_cases hd : b.Definition.isNone <;> by_cases hc : b.apiClient.isNone <;>
      by_cases he : b.errorMsg = "" <;>
      simp [validate, hd, hc, he, UndefinedCrdObjectErrString, VResult.bptr, ptrId]

/-- A builder that validates successfully validates to itself. -/
theorem validate_isValid_eq (b : Builder)
    (hb : (validate (some b)).isValid = true) : validate (some b) = .valid b := by
  cases hv : validate (some b) with
  | invalid bp' e => rw [hv] at hb; simp [VResult.isValid] at hb
  | valid b' =>
    have hbb := Option.some.inj (validate_valid_eq (some b) b' hv)
    subst hbb
    rfl

/-- `WithNodePort` never moves the receiver pointer. -/
theorem WithNodePort_ptrId (bp : Option Builder) :
    ptrId (WithNodePort bp) = ptrId bp := by
  cases hval : validate bp with
  | invalid bp' err =>
    have hp := ptrId_validate bp
    rw [hval] at hp
    simp [VResult.bptr] at hp
    simp [WithNodePort, hval, hp]
  | valid b0 =>
    have hbp := validate_valid_eq bp b0 hval
    subst hbp
    cases hdef : b0.Definition with
    | none => simp [WithNodePort, hval, hdef, ptrId]
    | some d =>
      by_cases hl : d.spec.ports.length < 1 <;>
        simp [WithNodePort, hval, hdef, hl, ptrId]

/-- `WithExternalTrafficPolicy` never moves the receiver pointer. -/
theorem WithExternalTrafficPolicy_ptrId (bp : Option Builder) (policy : String) :
    ptrId (WithExternalTrafficPolicy bp policy) = ptrId bp := by
  cases hval : validate bp with
  | invalid bp' err =>
    have hp := ptrId_validate bp
    rw [hval] at hp
    simp [VResult.bptr] at hp
    simp [WithExternalTrafficPolicy, hval, hp]
  | valid b0 =>
    have hbp := validate_valid_eq bp b0 hval
    subst hbp
    by_cases hpol : policy = "" <;> by_cases he : b0.errorMsg = "" <;>
      cases hdef : b0.Definition <;>
      simp [WithExternalTrafficPolicy, hval, hpol, he, hdef, ptrId]

/-- `WithAnnotation` never moves the receiver pointer. -/
theorem WithAnnotation_ptrId (bp : Option Builder)
    (anns : Option (List (String × String))) :
    ptrId ( WithAnnotation bp anns) = ptrId bp := by
  cases hval : validate bp with
  | invalid bp' err =>
    have hp := ptrId_validate bp
    rw [hval] at hp
    simp [VResult.bptr] at hp
    simp [ WithAnnotation, hval, hp]
  | valid b0 =>
    have hbp := validate_valid_eq bp b0 hval
    subst hbp
    cases anns <;> by_cases he : b0.errorMsg = "" <;>
      cases hdef : b0.Definition <;>
      simp [ WithAnnotation, hval, he, hdef, ptrId]

/-- `WithIPFamily` never moves the receiver pointer. -/
theorem WithIPFamily_ptrId (bp : Option Builder) (fam : Option (List String))
    (pol : String) : ptrId (WithIPFamily bp fam pol) = ptrId bp := by
  cases hval : validate bp with
  | invalid bp' err =>
    have hp := ptrId_validate bp
    rw [hval] at hp
    simp [VResult.bptr] at hp
    simp [WithIPFamily, hval, hp]
  | valid b0 =>
    have hbp := validate_valid_eq bp b0 hval
    subst hbp
    cases fam <;> by_cases hpol : pol = "" <;> by_cases he : b0.errorMsg = "" <;>
      cases hdef : b0.Definition <;>
      simp [WithIPFamily, hval, hpol, he, hdef, ptrId]

/-- When every option in the list answers with a nil error, the
`WithOptions` loop ends on a builder at the receiver's own address. -/
theorem withOptionsLoop_id (b : Builder) (opts : List (Option AdditionalOptions))
    (h : ∀ g, some g ∈ opts → ∀ x, (g x).2 = none) :
    (withOptionsLoop b opts).id = b.id := by
  induction opts generalizing b with
  | nil => rfl
  | cons o rest ih =>
    cases o with
    | none =>
      exact ih b (fun g hg x => h g (List.mem_cons_of_mem _ hg) x)
    | some g =>
      have hg := h g (List.mem_cons_self _ _) b
      cases hgb : g b with
      | mk rb err =>
        rw [hgb] at hg
        simp at hg
        subst hg
        by_cases hid : rb.id = b.id
        · simp [withOptionsLoop, hgb, hid]
          rw [ih rb (fun g' hg' x => h g' (List.mem_cons_of_mem _ hg') x)]
          exact hid
        · simp [withOptionsLoop, hgb, hid]
          exact ih b (fun g' hg' x => h g' (List.mem_cons_of_mem _ hg') x)

/-! ### Claim theorems -/

/-- Claim C1, counterexample: the claim says the error reported by
`validate` is the first error encountered.  In `NewBuilder` with both
`name` and `nsname` empty, the name error is encountered first, yet
`validate` reports the namespace error: later checks overwrite `errorMsg`. -/
theorem C1_counterexample :
    (validate (some (NewBuilder (some notFoundClient) "" "" [] samplePort 0))).errMsg
        = some "Namespace 'nsname' cannot be empty" ∧
      "Namespace 'nsname' cannot be empty" ≠ "Service 'name' cannot be empty" :=
  ⟨rfl, by decide⟩

/-- Claim C1, amended: on multiple validation failures the reported error
is the last one encountered, because each check overwrites `errorMsg`:
`NewBuilder` with both `name` and `nsname` empty reports the `nsname`
error, and `validate` on a builder whose `errorMsg` is set while its
`apiClient` is nil reports the `apiClient` error. -/
theorem C1_amended (c : ApiClient) (labels : List (String × String))
    (sp : ServicePort) (fid : Nat) (b : Builder) (d : Service)
    (hd : b.Definition = some d) (hc : b.apiClient = none) :
    (validate (some (NewBuilder (some c) "" "" labels sp fid))).errMsg
        = some "Namespace 'nsname' cannot be empty" ∧
      (validate (some b)).errMsg = some "Service builder cannot have nil apiClient" := by
  constructor
  · simp [NewBuilder, validate, VResult.errMsg]
  · simp [validate, hd, hc, VResult.errMsg]

/-- Claim C1, witness: the amended statement at concrete inputs. -/
theorem C1_witness :
    stuckBuilder.Definition = some sampleService ∧ stuckBuilder.apiClient = none ∧
      ((validate (some (NewBuilder (some notFoundClient) "" "" [] samplePort 0))).errMsg
          = some "Namespace 'nsname' cannot be empty" ∧
        (validate (some stuckBuilder)).errMsg
          = some "Service builder cannot have nil apiClient") :=
  ⟨rfl, rfl, C1_amended notFoundClient [] samplePort 0 stuckBuilder sampleService rfl rfl⟩

/-- Claim C8: `isValidPort` accepts every `int32` value (its two
comparisons are joined by `||`, so one always holds), hence
`DefineServicePort` never takes an error branch: for every port and
target port it returns the `ServicePort` with the given protocol, port
and integer target port, together with a nil error. -/
theorem C8 (port targetPort : Int) (protocol : String) :
    isValidPort port = true ∧
      DefineServicePort port targetPort protocol =
        (some { protocol := protocol, port := port
                targetPort := { typ := 0, intVal := targetPort, strVal := "" }
                nodePort := 0 }, none) := by
  have h : ∀ p : Int, isValidPort p = true := by
    intro p
    have hp : (p > 0) ∨ (p < 65535) := by omega
    simp [isValidPort, hp]
  exact ⟨h port, by simp [DefineServicePort, h]⟩

/-- Claim C10: on a valid builder whose definition has no ports,
`WithNodePort` reports "service does not have the available ports" but has
already set the service type to `NodePort`: the definition is mutated even
though the mutator fails. -/
theorem C10 (b : Builder) (c : ApiClient) (d : Service)
    (hc : b.apiClient = some c) (hd : b.Definition = some d)
    (he : b.errorMsg = "") (hp : d.spec.ports = []) :
    WithNodePort (some b) = some { b with
      Definition := some { d with spec := { d.spec with type := "NodePort" } }
      errorMsg := "service does not have the available ports" } := by
  have hval := validate_some_valid b c d hc hd he
  simp [WithNodePort, hval, hd, hp]

/-- Claim C10, witness: the statement at a concrete builder. -/
theorem C10_witness :
    noPortsBuilder.apiClient = some notFoundClient ∧
      noPortsBuilder.Definition = some noPortsService ∧
      noPortsBuilder.errorMsg = "" ∧ noPortsService.spec.ports = [] ∧
      WithNodePort (some noPortsBuilder) = some { noPortsBuilder with
        Definition := some { noPortsService with spec :=
          { noPortsService.spec with type := "NodePort" } }
        errorMsg := "service does not have the available ports" } :=
  ⟨rfl, rfl, rfl, rfl, C10 noPortsBuilder notFoundClient noPortsService rfl rfl rfl rfl⟩

/-- Claim C5: after `Exists` on a builder that passes validation, `Object`
is exactly what the cluster `Get` returned for the definition's name and
namespace: the fetched live object when `Get` succeeds, nil when it fails. -/
theorem C5 (b : Builder) (c : ApiClient) (d : Service)
    (hc : b.apiClient = some c) (hd : b.Definition = some d)
    (he : b.errorMsg = "") :
    (Exists (some b)).2.1 = some { b with
      Object := getObject c d.metadata.namespace' d.metadata.name } := by
  have hval := validate_some_valid b c d hc hd he
  cases hres : c.get d.metadata.namespace' d.metadata.name <;>
    simp [Exists, hval, hc, hd, getObject, hres]

/-- Claim C5, witness: the statement at a concrete builder whose cluster
returns the service. -/
theorem C5_witness :
    vbOk.apiClient = some okClient ∧ vbOk.Definition = some sampleService ∧
      vbOk.errorMsg = "" ∧
      (Exists (some vbOk)).2.1 = some { vbOk with
        Object := getObject okClient sampleService.metadata.namespace'
          sampleService.metadata.name } :=
  ⟨rfl, rfl, rfl, C5 vbOk okClient sampleService rfl rfl rfl⟩

/-- Claim C9: on a builder that passes validation, `Exists` answers false
exactly when `Get` fails with NotFound; on every other `Get` failure it
answers true while `Object` is left nil. -/
theorem C9 (b : Builder) (c : ApiClient) (d : Service)
    (hc : b.apiClient = some c) (hd : b.Definition = some d)
    (he : b.errorMsg = "") :
    ((Exists (some b)).1 = false ↔
        c.get d.metadata.namespace' d.metadata.name = .error .notFound) ∧
      (∀ m, c.get d.metadata.namespace' d.metadata.name = .error (.other m) →
        (Exists (some b)).1 = true ∧
          (Exists (some b)).2.1 = some { b with Object := none }) := by
  have hval := validate_some_valid b c d hc hd he
  cases hres : c.get d.metadata.namespace' d.metadata.name with
  | ok s => simp [Exists, hval, hc, hd, hres, ApiError.isNotFound]
  | error e =>
    cases e <;> simp [Exists, hval, hc, hd, hres, ApiError.isNotFound]

/-- Claim C9, witness: a connection failure makes `Exists` answer true
with a nil `Object`. -/
theorem C9_witness :
    vbDown.apiClient = some downClient ∧ vbDown.Definition = some sampleService ∧
      vbDown.errorMsg = "" ∧
      downClient.get sampleService.metadata.namespace' sampleService.metadata.name
        = .error (.other "connection refused") ∧
      (Exists (some vbDown)).1 = true ∧
      (Exists (some vbDown)).2.1 = some { vbDown with Object := none } := by
  have h := (C9 vbDown downClient sampleService rfl rfl rfl).2 "connection refused" rfl
  exact ⟨rfl, rfl, rfl, rfl, h.1, h.2⟩

/-- Claim C6: on a valid builder, `Create` calls the cluster `Create` with
the definition only when the service does not already exist, storing the
created object in `Object`; when it exists, no `Create` call is made and a
nil error is returned. -/
theorem C6 (b : Builder) (c : ApiClient) (d : Service)
    (hc : b.apiClient = some c) (hd : b.Definition = some d)
    (he : b.errorMsg = "") :
    (∀ s, c.get d.metadata.namespace' d.metadata.name = .ok s →
        (Create (some b)).2.2 = [ApiCall.get d.metadata.namespace' d.metadata.name] ∧
          (Create (some b)).2.1 = none ∧
          (Create (some b)).1 = some { b with Object := some s }) ∧
      (c.get d.metadata.namespace' d.metadata.name = .error .notFound →
        (Create (some b)).2.2 = [ApiCall.get d.metadata.namespace' d.metadata.name,
            ApiCall.create d.metadata.namespace' d] ∧
          (∀ s', c.create d.metadata.namespace' d = .ok s' →
            (Create (some b)).1 = some { b with Object := some s' } ∧
              (Create (some b)).2.1 = none)) := by
  have hval := validate_some_valid b c d hc hd he
  constructor
  · intro s hres
    simp [Create, Exists, hval, hc, hd, hres, ApiError.isNotFound]
  · intro hres
    cases hcr : c.create d.metadata.namespace' d <;>
      simp [Create, Exists, hval, hc, hd, hres, hcr, ApiError.isNotFound]

/-- Claim C6, witness: the not-yet-existing case at a concrete builder. -/
theorem C6_witness :
    vbNotFound.apiClient = some notFoundClient ∧
      vbNotFound.Definition = some sampleService ∧ vbNotFound.errorMsg = "" ∧
      notFoundClient.get sampleService.metadata.namespace' sampleService.metadata.name
        = .error .notFound ∧
      (Create (some vbNotFound)).2.2 = [ApiCall.get "ns" "svc",
        ApiCall.create "ns" sampleService] ∧
      (Create (some vbNotFound)).1 = some { vbNotFound with Object := some sampleService } ∧
      (Create (some vbNotFound)).2.1 = none := by
  have h := (C6 vbNotFound notFoundClient sampleService rfl rfl rfl).2 rfl
  exact ⟨rfl, rfl, rfl, rfl, h.1, (h.2 sampleService rfl).1, (h.2 sampleService rfl).2⟩

/-- Claim C7: on a valid builder, `Delete` returns nil without a cluster
`Delete` call when the service is not found; when it exists and the API
`Delete` succeeds it clears `Object` and returns nil; when the API
`Delete` fails it returns that error and leaves `Object` as the non-nil
fetched object. -/
theorem C7 (b : Builder) (c : ApiClient) (d : Service)
    (hc : b.apiClient = some c) (hd : b.Definition = some d)
    (he : b.errorMsg = "") :
    (c.get d.metadata.namespace' d.metadata.name = .error .notFound →
        (Delete (some b)).1 = .ret none ∧
          (Delete (some b)).2.2 = [ApiCall.get d.metadata.namespace' d.metadata.name]) ∧
      (∀ s, c.get d.metadata.namespace' d.metadata.name = .ok s →
        (c.delete d.metadata.namespace' s.metadata.name = none →
            (Delete (some b)).1 = .ret none ∧
              (Delete (some b)).2.1 = some { b with Object := none }) ∧
          (∀ e, c.delete d.metadata.namespace' s.metadata.name = some e →
            (Delete (some b)).1 = .ret (some (.api e)) ∧
              (Delete (some b)).2.1 = some { b with Object := some s })) := by
  have hval := validate_some_valid b c d hc hd he
  constructor
  · intro hres
    simp [Delete, Exists, hval, hc, hd, hres, ApiError.isNotFound]
  · intro s hres
    constructor
    · intro hdel
      simp [Delete, Exists, hval, hc, hd, hres, hdel, ApiError.isNotFound]
    · intro e hdel
      simp [Delete, Exists, hval, hc, hd, hres, hdel, ApiError.isNotFound]

/-- Claim C7, witness: the failing-`Delete` case at a concrete builder. -/
theorem C7_witness :
    vbDelFail.apiClient = some delFailClient ∧
      vbDelFail.Definition = some sampleService ∧ vbDelFail.errorMsg = "" ∧
      delFailClient.get sampleService.metadata.namespace' sampleService.metadata.name
        = .ok sampleService ∧
      delFailClient.delete sampleService.metadata.namespace'
        sampleService.metadata.name = some (.other "forbidden") ∧
      (Delete (some vbDelFail)).1 = .ret (some (.api (.other "forbidden"))) ∧
      (Delete (some vbDelFail)).2.1 = some { vbDelFail with Object := some sampleService } := by
  have h := ((C7 vbDelFail delFailClient sampleService rfl rfl rfl).2
    sampleService rfl).2 (.other "forbidden") rfl
  exact ⟨rfl, rfl, rfl, rfl, rfl, h.1, h.2⟩

/-- Claim C2: on a nil builder, a nil `Definition` or a nil `apiClient`,
`validate` answers false with a non-nil error, and every guarded operation
returns right after `validate` — no cluster API call is made (empty call
lists), `Delete` does not panic, and each mutator returns the validated
receiver pointer untouched. -/
theorem C2 (bp : Option Builder) (b : Builder)
    (opts : List (Option AdditionalOptions)) (policy : String)
    (anns : Option (List (String × String))) (fam : Option (List String))
    (pol : String)
    (h : bp = none ∨ (bp = some b ∧ (b.Definition = none ∨ b.apiClient = none))) :
    (validate bp).isValid = false ∧ (validate bp).errMsg.isSome = true ∧
      (Exists bp).1 = false ∧ (Exists bp).2.2 = [] ∧
      (Create bp).2.1.isSome = true ∧ (Create bp).2.2 = [] ∧
      (Delete bp).1 ≠ DelOutcome.panicked ∧ (Delete bp).2.2 = [] ∧
      WithNodePort bp = (validate bp).bptr ∧
      WithOptions bp opts = (validate bp).bptr ∧
      WithExternalTrafficPolicy bp policy = (validate bp).bptr ∧
      WithAnnotation bp anns = (validate bp).bptr ∧
      WithIPFamily bp fam pol = (validate bp).bptr := by
  have hinv : (validate bp).isValid = false := by
    rcases h with rfl | ⟨rfl, hd | hc⟩
    · rfl
    · cases hc2 : b.apiClient <;>
        simp [validate, hd, hc2, UndefinedCrdObjectErrString, VResult.isValid]
    · cases hd2 : b.Definition <;>
        simp [validate, hd2, hc, UndefinedCrdObjectErrString, VResult.isValid]
  cases hval : validate bp with
  | valid b' => rw [hval] at hinv; simp [VResult.isValid] at hinv
  | invalid bp' e =>
    refine ⟨?_, ?_, ?_, ?_, ?_, ?_, ?_, ?_, ?_, ?_, ?_, ?_, ?_⟩ <;>
      simp [hval, Exists, Create, Delete, WithNodePort, WithOptions,
        WithExternalTrafficPolicy, WithAnnotation, WithIPFamily,
        VResult.isValid, VResult.errMsg, VResult.bptr]

/-- Claim C2, witness: the statement at a concrete builder with a nil
`Definition`. -/
theorem C2_witness :
    (nilDefBuilder.Definition = none ∨ nilDefBuilder.apiClient = none) ∧
      ((validate (some nilDefBuilder)).isValid = false ∧
        (validate (some nilDefBuilder)).errMsg.isSome = true ∧
        (Exists (some nilDefBuilder)).1 = false ∧
        (Exists (some nilDefBuilder)).2.2 = [] ∧
        (Create (some nilDefBuilder)).2.1.isSome = true ∧
        (Create (some nilDefBuilder)).2.2 = [] ∧
        (Delete (some nilDefBuilder)).1 ≠ DelOutcome.panicked ∧
        (Delete (some nilDefBuilder)).2.2 = [] ∧
        WithNodePort (some nilDefBuilder) = (validate (some nilDefBuilder)).bptr ∧
        WithOptions (some nilDefBuilder) [] = (validate (some nilDefBuilder)).bptr ∧
        WithExternalTrafficPolicy (some nilDefBuilder) "Local"
          = (validate (some nilDefBuilder)).bptr ∧
        WithAnnotation (some nilDefBuilder) (some [("k", "v")])
          = (validate (some nilDefBuilder)).bptr ∧
        WithIPFamily (some nilDefBuilder) (some ["IPv4"]) "SingleStack"
          = (validate (some nilDefBuilder)).bptr) :=
  ⟨Or.inl rfl,
    C2 (some nilDefBuilder) nilDefBuilder [] "Local" (some [("k", "v")])
      (some ["IPv4"]) "SingleStack" (Or.inr ⟨rfl, Or.inl rfl⟩)⟩

/-- Claim C3, counterexample: on a builder whose `errorMsg` is "boom" but
whose `apiClient` is also nil, `Create` reports the `apiClient` error,
not an error built from the accumulated `errorMsg`: `validate` overwrites
`errorMsg` before building the error. -/
theorem C3_counterexample :
    stuckBuilder.errorMsg = "boom" ∧
      (Create (some stuckBuilder)).2.1
        = some (.fromString "Service builder cannot have nil apiClient") ∧
      (Create (some stuckBuilder)).2.1 ≠ some (.fromString "boom") :=
  ⟨rfl, rfl, by decide⟩

/-- Claim C3, amended: for every builder whose `errorMsg` is non-empty and
whose `Definition` and `apiClient` are non-nil, every `With*` mutator
returns the builder unchanged (so the `Definition` is unchanged), `Exists`
answers false with no cluster call, and `Create` and `Delete` return the
error built from that `errorMsg` with no cluster call.  (When `Definition`
or `apiClient` is also nil, `validate` overwrites `errorMsg` and the
reported error names the nil field instead.) -/
theorem C3_amended (b : Builder) (c : ApiClient) (d : Service)
    (opts : List (Option AdditionalOptions)) (policy : String)
    (anns : Option (List (String × String))) (fam : Option (List String))
    (pol : String)
    (he : b.errorMsg ≠ "") (hd : b.Definition = some d) (hc : b.apiClient = some c) :
    WithNodePort (some b) = some b ∧
      WithOptions (some b) opts = some b ∧
      WithExternalTrafficPolicy (some b) policy = some b ∧
      WithAnnotation (some b) anns = some b ∧
      WithIPFamily (some b) fam pol = some b ∧
      (Exists (some b)).1 = false ∧ (Exists (some b)).2.2 = [] ∧
      (Create (some b)).2.1 = some (.fromString b.errorMsg) ∧
      (Create (some b)).2.2 = [] ∧
      (Delete (some b)).1 = DelOutcome.ret (some (.fromString b.errorMsg)) ∧
      (Delete (some b)).2.2 = [] := by
  have hval := validate_some_invalid b c d hc hd he
  refine ⟨?_, ?_, ?_, ?_, ?_, ?_, ?_, ?_, ?_, ?_, ?_⟩ <;>
    simp [WithNodePort, WithOptions, WithExternalTrafficPolicy, WithAnnotation,
      WithIPFamily, Exists, Create, Delete, hval, VResult.bptr]

/-- Claim C3, witness: the amended statement at a concrete builder. -/
theorem C3_witness :
    errBuilder.errorMsg = "boom" ∧ errBuilder.Definition = some sampleService ∧
      errBuilder.apiClient = some notFoundClient ∧
      (WithNodePort (some errBuilder) = some errBuilder ∧
        WithOptions (some errBuilder) [] = some errBuilder ∧
        WithExternalTrafficPolicy (some errBuilder) "Local" = some errBuilder ∧
        WithAnnotation (some errBuilder) (some [("k", "v")]) = some errBuilder ∧
        WithIPFamily (some errBuilder) (some ["IPv4"]) "SingleStack" = some errBuilder ∧
        (Exists (some errBuilder)).1 = false ∧ (Exists (some errBuilder)).2.2 = [] ∧
        (Create (some errBuilder)).2.1 = some (.fromString errBuilder.errorMsg) ∧
        (Create (some errBuilder)).2.2 = [] ∧
        (Delete (some errBuilder)).1 = DelOutcome.ret (some (.fromString errBuilder.errorMsg)) ∧
        (Delete (some errBuilder)).2.2 = []) :=
  ⟨rfl, rfl, rfl,
    C3_amended errBuilder notFoundClient sampleService [] "Local"
      (some [("k", "v")]) (some ["IPv4"]) "SingleStack" (by decide) rfl rfl⟩

/-- Claim C4, counterexample: `WithOptions` invoked on the builder at
address 0 with an option that fails while handing back the builder at
address 1 returns that other pointer, not the receiver. -/
theorem C4_counterexample :
    cb0.id = 0 ∧
      ptrId (WithOptions (some cb0) [some swapOpt]) = some 1 ∧
      ptrId (WithOptions (some cb0) [some swapOpt]) ≠ ptrId (some cb0) :=
  ⟨rfl, rfl, by decide⟩

/-- Claim C4, amended: `WithNodePort`, `WithExternalTrafficPolicy`,
`WithAnnotation` and `WithIPFamily` always return the Builder pointer
they were invoked on; `WithOptions` does so when every option returns a
nil error, but when an option fails it returns whatever builder pointer
that option returned (with `errorMsg` set on it), which need not be the
receiver. -/
theorem C4_amended (bp : Option Builder) (policy pol : String)
    (anns : Option (List (String × String))) (fam : Option (List String))
    (b rb : Builder) (opts : List (Option AdditionalOptions))
    (f : AdditionalOptions) (e : String)
    (hopts : ∀ g, some g ∈ opts → ∀ x, (g x).2 = none)
    (hf : f b = (rb, some e))
    (hb : (validate (some b)).isValid = true) :
    ptrId (WithNodePort bp) = ptrId bp ∧
      ptrId (WithExternalTrafficPolicy bp policy) = ptrId bp ∧
      ptrId ( WithAnnotation bp anns) = ptrId bp ∧
      ptrId (WithIPFamily bp fam pol) = ptrId bp ∧
      ptrId (WithOptions bp opts) = ptrId bp ∧
      WithOptions (some b) (some f :: opts) = some { rb with errorMsg := e } := by
  have hvb := validate_isValid_eq b hb
  refine ⟨WithNodePort_ptrId bp, WithExternalTrafficPolicy_ptrId bp policy,
    WithAnnotation_ptrId bp anns, WithIPFamily_ptrId bp fam pol, ?_, ?_⟩
  · cases hval : validate bp with
    | invalid bp' err =>
      have hp := ptrId_validate bp
      rw [hval] at hp
      simp [VResult.bptr] at hp
      simp [WithOptions, hval, hp]
    | valid b0 =>
      have hbp := validate_valid_eq bp b0 hval
      subst hbp
      simp [WithOptions, hval, ptrId, withOptionsLoop_id b0 opts hopts]
  · simp [WithOptions, hvb, withOptionsLoop, hf]

/-- Claim C4, witness: the amended statement at concrete inputs. -/
theorem C4_witness :
    swapOpt cb0 = (cb1, some "mutation failed") ∧
      (validate (some cb0)).isValid = true ∧
      (ptrId (WithNodePort (some cb0)) = ptrId (some cb0) ∧
        ptrId (WithExternalTrafficPolicy (some cb0) "Local") = ptrId (some cb0) ∧
        ptrId ( WithAnnotation (some cb0) (some [("k", "v")])) = ptrId (some cb0) ∧
        ptrId (WithIPFamily (some cb0) (some ["IPv4"]) "SingleStack") = ptrId (some cb0) ∧
        ptrId (WithOptions (some cb0) []) = ptrId (some cb0) ∧
        WithOptions (some cb0) [some swapOpt] = some { cb1 with errorMsg := "mutation failed" }) :=
  ⟨rfl, rfl,
    C4_amended (some cb0) "Local" "SingleStack" (some [("k", "v")]) (some ["IPv4"])
      cb0 cb1 [] swapOpt "mutation failed" (by simp) rfl rfl⟩

end service
